import Mathlib

/-!
Verification of the `incode` test-debuggee fixture against its design
specification.  The C++ sources (`src/test_debuggee/main.cpp`,
`memory.cpp`, `threads.cpp`, `variables.cpp`) are shallowly embedded
below: pure computations become Lean functions, imperative fills become
folds over explicit buffers, the thread roles of the concurrency
showcase become a small-step system driven by an explicit schedule, and
process-level effects (printing the unknown-mode message, exiting,
crashing) become fields of an explicit result type.
-/

namespace Incode

/-! ## Scenario dispatcher (`main.cpp`, `main`) -/

/-- What the process does after the dispatch in `main` (lines 252-277):
a normal return with an exit status, an intentional crash via one of the
fault triggers, or the non-returning infinite loop. -/
inductive Outcome where
  | exited (code : Int)
  | crashed (trigger : String)
  | loops
deriving DecidableEq, Repr

/-- Observable result of the mode dispatch: the process outcome plus
whether the two unknown-mode lines were printed. -/
structure DispatchResult where
  outcome : Outcome
  unknownPrinted : Bool
deriving DecidableEq, Repr

/-- The `Available modes:` line printed by the unknown-mode branch of
`main` (main.cpp line 273), verbatim. -/
def availableModesLine : String :=
  "Available modes: normal, threads, memory, crash-segv, crash-stack, crash-abort, crash-div0, infinite, step-debug"

/-- The nine recognized mode strings, in the order `main` tests them. -/
def recognizedModes : List String :=
  ["normal", "threads", "memory", "crash-segv", "crash-stack",
   "crash-abort", "crash-div0", "infinite", "step-debug"]

/-- The recognized modes whose scenario returns normally, after which
`main` falls through to `return 0`. -/
def nonCrashNonInfiniteModes : List String :=
  ["normal", "threads", "memory", "step-debug"]

/-- The if/else-if chain of `main` (main.cpp lines 252-277).  The four
crash modes end in a fault trigger; `infinite` never returns; every
other recognized mode runs its scenario and reaches `return 0`; the
final `else` prints the unknown-mode message and `return 1`. -/
def dispatch (mode : String) : DispatchResult :=
  if mode = "normal" then ⟨.exited 0, false⟩
  else if mode = "threads" then ⟨.exited 0, false⟩
  else if mode = "memory" then ⟨.exited 0, false⟩
  else if mode = "crash-segv" then ⟨.crashed "segv", false⟩
  else if mode = "crash-stack" then ⟨.crashed "stack-overflow", false⟩
  else if mode = "crash-abort" then ⟨.crashed "abort", false⟩
  else if mode = "crash-div0" then ⟨.crashed "div0", false⟩
  else if mode = "infinite" then ⟨.loops, false⟩
  else if mode = "step-debug" then ⟨.exited 0, false⟩
  else ⟨.exited 1, true⟩

/-! ## Argument parsing (`main.cpp`, `main`, lines 231-244) -/

/-- Digit-accumulation loop of C `atoi`: consume leading decimal digits,
stop at the first non-digit. -/
def atoiDigits : List Char → Nat → Nat
  | c :: cs, acc =>
      if c.isDigit then atoiDigits cs (acc * 10 + (c.toNat - 48)) else acc
  | [], acc => acc

/-- C `atoi` as used on `argv[i + 1]` for `--delay`: skip leading
whitespace, accept one optional sign, convert the leading digit run, and
return 0 when there are no digits. -/
def atoi (s : String) : Int :=
  match s.data.dropWhile (fun c => c = ' ' ∨ c = '\t' ∨ c = '\n' ∨ c = '\r') with
  | '-' :: rest => -(atoiDigits rest 0 : Int)
  | '+' :: rest => (atoiDigits rest 0 : Int)
  | rest => (atoiDigits rest 0 : Int)

/-- The argument-scanning loop of `main` (lines 236-244) over
`argv[1..]`.  `--mode`/`--delay` followed by a further argument consume
that argument as the value (the index skip `i++`); a flag in final
position fails the `i + 1 < argc` conjunct and is skipped; anything else
is skipped. -/
def parseLoop : List String → String → Int → String × Int
  | [], mode, delay => (mode, delay)
  | a :: rest, mode, delay =>
      if a = "--mode" then
        match rest with
        | v :: rest2 => parseLoop rest2 v delay
        | [] => (mode, delay)
      else if a = "--delay" then
        match rest with
        | v :: rest2 => parseLoop rest2 mode (atoi v)
        | [] => (mode, delay)
      else
        parseLoop rest mode delay

/-- Parse `argv[1..]` starting from the defaults `mode = "normal"`,
`delay_seconds = 2` (main.cpp lines 232-233). -/
def parse_args (args : List String) : String × Int :=
  parseLoop args "normal" 2

/-! ## Stack pattern fill (`memory.cpp`, `create_stack_patterns`) -/

/-- The fill loop of `create_stack_patterns` (memory.cpp lines 47-49):
`for (i = 0; i < 512; i++) stack_buffer[i] = 'A' + (i % 26)`, modelled
as index-by-index updates of an explicit byte buffer (`'A'` is 65). -/
def fillStackLoop (buf : List Nat) (i : Nat) : List Nat :=
  if i < 512 then fillStackLoop (buf.set i (65 + i % 26)) (i + 1) else buf
termination_by 512 - i

/-- The 512-byte `stack_buffer` after the fill loop runs over the
uninitialized (here zeroed) local array. -/
def stack_buffer : List Nat :=
  fillStackLoop (List.replicate 512 0) 0

/-! ## Heap pattern allocations (`memory.cpp`, `create_heap_patterns`) -/

/-- One allocation or deallocation event of `create_heap_patterns`,
identified by the local variable naming the region. -/
inductive HeapEvent where
  | alloc (name : String) (elems : Nat)
  | free (name : String)
deriving DecidableEq, Repr

/-- The allocation/deallocation events of `create_heap_patterns`
(memory.cpp lines 77-133), in program order: the four main allocations
(lines 81-84), the three fragmentation allocations (lines 111-113), and
the two `delete[]`s (lines 128-129); `heap_doubles`, `heap_struct` and
the three small allocations are intentionally never freed (line 130). -/
def create_heap_patterns_events : List HeapEvent :=
  [.alloc "heap_buffer" 1024,
   .alloc "heap_integers" 128,
   .alloc "heap_doubles" 64,
   .alloc "heap_struct" 1,
   .alloc "small_alloc1" 16,
   .alloc "small_alloc2" 32,
   .alloc "small_alloc3" 64,
   .free "heap_buffer",
   .free "heap_integers"]

/-- Replay a heap event onto the list of currently resident region
names (allocation order preserved). -/
def applyHeapEvent (res : List String) : HeapEvent → List String
  | .alloc n _ => res ++ [n]
  | .free n => res.filter (fun m => m ≠ n)

/-- The region names still resident after a sequence of heap events. -/
def residentAfter (events : List HeapEvent) : List String :=
  events.foldl applyHeapEvent []

/-! ## Linked list and binary tree (`variables.cpp`) -/

/-- A node chain as built by `create_linked_list`: the `data` fields
reachable from `head` via `next` (the `prev` back-pointers of the
doubly-linked C++ `Node` always point to the preceding element and are
determined by this sequence). -/
def buildListFrom (i count : Int) : List Int :=
  if i ≤ count then i :: buildListFrom (i + 1) count else []
termination_by (count + 1 - i).toNat
decreasing_by
  omega

/-- `create_linked_list` (variables.cpp lines 196-210): `count <= 0`
returns the null list; otherwise `head = Node(1)` and the loop appends
nodes `2 .. count`. -/
def create_linked_list (count : Int) : List Int :=
  if count ≤ 0 then [] else 1 :: buildListFrom 2 count

/-- The `TreeNode` shape built by `create_binary_tree`: value, left and
right subtrees, and the `depth` field stored in the constructor;
`leaf` is the `nullptr` child. -/
inductive TreeNode where
  | leaf : TreeNode
  | node (value : Int) (left : TreeNode) (right : TreeNode) (depth : Int) : TreeNode
deriving DecidableEq, Repr

/-- `create_binary_tree` (variables.cpp lines 213-221): `depth <= 0`
returns `nullptr`; otherwise a root holding `value` with left subtree
built from `2 * value` and right subtree from `2 * value + 1`, one
level shallower. -/
def create_binary_tree (depth value : Int) : TreeNode :=
  if depth ≤ 0 then .leaf
  else .node value (create_binary_tree (depth - 1) (value * 2))
         (create_binary_tree (depth - 1) (value * 2 + 1)) depth
termination_by depth.toNat
decreasing_by
  all_goals omega

/-- Number of nodes of a built tree. -/
def TreeNode.size : TreeNode → Nat
  | .leaf => 0
  | .node _ l r _ => 1 + l.size + r.size

/-- The values of a built tree, preorder. -/
def TreeNode.values : TreeNode → List Int
  | .leaf => []
  | .node v l r _ => v :: (l.values ++ r.values)

/-- Check at every node that a present left child holds `2 * v` and a
present right child holds `2 * v + 1`, `v` the parent's value. -/
def TreeNode.childPattern : TreeNode → Bool
  | .leaf => true
  | .node v l r _ =>
      (match l with
       | .leaf => true
       | .node lv _ _ _ => lv = 2 * v) &&
      (match r with
       | .leaf => true
       | .node rv _ _ _ => rv = 2 * v + 1) &&
      l.childPattern && r.childPattern

/-! ## Recursive accumulation (`main.cpp`, `recursive_function`) -/

/-- `recursive_function` (main.cpp lines 87-98): `depth <= 0` returns
the accumulator, otherwise tail-recurse on `depth - 1` with
`accumulator + depth`. -/
def recursive_function (depth accumulator : Int) : Int :=
  if depth ≤ 0 then accumulator
  else recursive_function (depth - 1) (accumulator + depth)
termination_by depth.toNat
decreasing_by
  omega

/-! ## Worker thread state machine (`threads.cpp`, `worker_thread`) -/

/-- Phases of one worker through its loop (threads.cpp lines 38-73):
`running` is the `while` head, `waiting` the `global_cv.wait`,
`processing` the region after a successful pop (sleep, then the local
and global counter increments), `completed` is past the loop. -/
inductive WPhase where
  | running
  | waiting
  | processing
  | completed
deriving DecidableEq, Repr

/-- One observable step of `worker_thread`, from the phase and the
observed shutdown flag `sh`, work queue `q` and local work count `c`:

* at the loop head (line 38) the worker continues into the wait only
  when `!shutdown_requested && local_work_count < 10`, else it leaves
  the loop;
* the wait's predicate (line 44) is queue-non-empty-or-shutdown, and on
  waking with shutdown set the worker breaks out (line 48) whatever the
  queue holds; with work available it pops the front item (lines 53-55);
* after processing it increments `local_work_count` and the global
  counter and returns to the loop head (lines 64-70).

Returns the next phase, the queue after the step, and the new local
work count. -/
def workerStep (sh : Bool) (q : List Nat) (c : Nat) : WPhase → WPhase × List Nat × Nat
  | .running => if ¬sh ∧ c < 10 then (.waiting, q, c) else (.completed, q, c)
  | .waiting =>
      if sh then (.completed, q, c)
      else
        match q with
        | _ :: rest => (.processing, rest, c)
        | [] => (.waiting, q, c)
  | .processing => (.running, q, c + 1)
  | .completed => (.completed, q, c)

/-! ## Threading orchestration (`threads.cpp`, `run_threading_scenarios`)

The eight spawned threads plus the orchestrating main thread become a
small-step system: a `Sys` state carries the shared queue, shutdown
flag and global counter together with each thread's private state, a
`Tid` names a thread, and an explicit schedule (a list of `Tid`s, the
abstraction of OS preemptive scheduling and of the wall-clock window)
drives the interleaving.  `popped` is a ghost count of successful
dequeues, used to state the counter/processed-items relation. -/

/-- Private state of one pool worker inside the orchestration model. -/
structure WorkerS where
  phase : WPhase
  count : Nat
deriving DecidableEq, Repr

/-- Thread identifiers of `run_threading_scenarios` (threads.cpp lines
193-208), plus `mainCtl` for the orchestrator's shutdown action (lines
219-225). -/
inductive Tid where
  | worker1
  | worker2
  | worker3
  | producer
  | monitor
  | blocker
  | cpu1
  | cpu2
  | mainCtl
deriving DecidableEq, Repr

/-- Shared and per-thread state of the threading scenario. -/
structure Sys where
  queue : List Nat
  shutdown : Bool
  counter : Nat
  popped : Nat
  w1 : WorkerS
  w2 : WorkerS
  w3 : WorkerS
  prodNext : Nat
  prodDone : Bool
  monIter : Nat
  monDone : Bool
  blockDone : Bool
  cpu1Iter : Nat
  cpu1Done : Bool
  cpu2Iter : Nat
  cpu2Done : Bool
deriving DecidableEq, Repr

/-- The state after the reset at the top of `run_threading_scenarios`
(threads.cpp lines 177-187: counter 0, shutdown false, queue cleared)
with every thread at its entry point; the producer's first work item id
is 1 (line 88). -/
def initSys : Sys :=
  { queue := [], shutdown := false, counter := 0, popped := 0
    w1 := ⟨.running, 0⟩, w2 := ⟨.running, 0⟩, w3 := ⟨.running, 0⟩
    prodNext := 1, prodDone := false
    monIter := 0, monDone := false
    blockDone := false
    cpu1Iter := 0, cpu1Done := false
    cpu2Iter := 0, cpu2Done := false }

/-- One `worker_thread` step inside the orchestration: `workerStep` on
the shared queue, counting a dequeue in `popped` and a counter
increment when the processing phase finishes. -/
def sysWorkerStep (s : Sys) (w : WorkerS) : WorkerS × List Nat × Nat × Nat :=
  let r := workerStep s.shutdown s.queue w.count w.phase
  let poppedInc := if w.phase = .waiting ∧ r.1 = .processing then 1 else 0
  let counterInc := if w.phase = .processing then 1 else 0
  (⟨r.1, r.2.2⟩, r.2.1, s.counter + counterInc, s.popped + poppedInc)

/-- One scheduled step of the whole scenario.  Besides the workers:

* `producer_thread` (lines 89-101) pushes `work_item_id` while
  `!shutdown_requested && work_item_id <= 30`, then finishes;
* `monitor_thread` (lines 114-125) iterates while
  `!shutdown_requested && monitor_iteration < 20`, then finishes;
* `blocking_thread` (lines 137-141) waits on the condition variable
  whose predicate is exactly the shutdown flag;
* `cpu_intensive_thread` (lines 154-167) iterates while
  `!shutdown_requested && iterations < 1000000`, then finishes;
* `mainCtl` is the orchestrator setting the shutdown flag after the
  observation window (lines 219-222). -/
def sysStep (s : Sys) : Tid → Sys
  | .worker1 =>
      let r := sysWorkerStep s s.w1
      { s with w1 := r.1, queue := r.2.1, counter := r.2.2.1, popped := r.2.2.2 }
  | .worker2 =>
      let r := sysWorkerStep s s.w2
      { s with w2 := r.1, queue := r.2.1, counter := r.2.2.1, popped := r.2.2.2 }
  | .worker3 =>
      let r := sysWorkerStep s s.w3
      { s with w3 := r.1, queue := r.2.1, counter := r.2.2.1, popped := r.2.2.2 }
  | .producer =>
      if s.prodDone then s
      else if ¬s.shutdown ∧ s.prodNext ≤ 30 then
        { s with queue := s.queue ++ [s.prodNext], prodNext := s.prodNext + 1 }
      else { s with prodDone := true }
  | .monitor =>
      if s.monDone then s
      else if ¬s.shutdown ∧ s.monIter < 20 then { s with monIter := s.monIter + 1 }
      else { s with monDone := true }
  | .blocker =>
      if s.shutdown then { s with blockDone := true } else s
  | .cpu1 =>
      if s.cpu1Done then s
      else if ¬s.shutdown ∧ s.cpu1Iter < 1000000 then { s with cpu1Iter := s.cpu1Iter + 1 }
      else { s with cpu1Done := true }
  | .cpu2 =>
      if s.cpu2Done then s
      else if ¬s.shutdown ∧ s.cpu2Iter < 1000000 then { s with cpu2Iter := s.cpu2Iter + 1 }
      else { s with cpu2Done := true }
  | .mainCtl => { s with shutdown := true }

/-- Run the scenario under an explicit schedule. -/
def sysRun (sched : List Tid) (s : Sys) : Sys :=
  sched.foldl sysStep s

/-- All eight spawned threads have returned, i.e. the `t.join()` loop
(threads.cpp lines 228-232) completes. -/
def Sys.allCompleted (s : Sys) : Bool :=
  s.w1.phase = .completed ∧ s.w2.phase = .completed ∧ s.w3.phase = .completed ∧
  s.prodDone ∧ s.monDone ∧ s.blockDone ∧ s.cpu1Done ∧ s.cpu2Done

/-- Workers currently inside the processing region: they have dequeued
an item but not yet incremented the global counter. -/
def Sys.inFlight (s : Sys) : Nat :=
  (if s.w1.phase = .processing then 1 else 0) +
  (if s.w2.phase = .processing then 1 else 0) +
  (if s.w3.phase = .processing then 1 else 0)

/-- A legal schedule in which every worker is starved until after the
orchestrator sets shutdown: the producer pushes its 30 items and
finishes, the monitor exhausts its 20 iterations, shutdown fires, and
every remaining thread then observes the flag and completes. -/
def starvedSched : List Tid :=
  List.replicate 31 .producer ++ List.replicate 21 .monitor ++
    [.mainCtl, .worker1, .worker2, .worker3, .blocker, .cpu1, .cpu2]

/-- A schedule matching the intended timing: the producer pushes all 30
items, each worker then runs ten full
wait/process/loop-head cycles and retires at its work-count ceiling,
and the remaining threads wind down after shutdown. -/
def drainedSched : List Tid :=
  List.replicate 31 .producer ++
    (List.replicate 10 [Tid.worker1, .worker1, .worker1]).flatten ++ [.worker1] ++
    (List.replicate 10 [Tid.worker2, .worker2, .worker2]).flatten ++ [.worker2] ++
    (List.replicate 10 [Tid.worker3, .worker3, .worker3]).flatten ++ [.worker3] ++
    List.replicate 21 .monitor ++ [.mainCtl, .blocker, .cpu1, .cpu2]

/-! ## Theorems -/

/-- Claim C1: every mode string outside the nine recognized values makes
the program print the unknown-mode message together with the line
listing all recognized mode names and exit with status exactly 1, while
every recognized non-crash, non-infinite mode runs its scenario without
that message and exits with status 0. -/
theorem C1_dispatch_contract (m : String) (hm : m ∉ recognizedModes)
    (m' : String) (hm' : m' ∈ nonCrashNonInfiniteModes) :
    (dispatch m = ⟨.exited 1, true⟩ ∧
      availableModesLine = "Available modes: " ++ String.intercalate ", " recognizedModes) ∧
    dispatch m' = ⟨.exited 0, false⟩ := by
  refine ⟨⟨?_, by decide⟩, ?_⟩
  · simp only [recognizedModes, List.mem_cons, List.not_mem_nil, or_false, not_or] at hm
    obtain ⟨h1, h2, h3, h4, h5, h6, h7, h8, h9⟩ := hm
    simp [dispatch, h1, h2, h3, h4, h5, h6, h7, h8, h9]
  · fin_cases hm' <;> decide

/-- Witness for C1 at the unrecognized mode `"bogus"` and the
recognized mode `"memory"`. -/
theorem C1_dispatch_contract_witness :
    (dispatch "bogus" = ⟨.exited 1, true⟩ ∧
      availableModesLine = "Available modes: " ++ String.intercalate ", " recognizedModes) ∧
    dispatch "memory" = ⟨.exited 0, false⟩ :=
  C1_dispatch_contract "bogus" (by decide) "memory" (by decide)

/-- Claim C2 counterexample: the claim asserts that a malformed or
missing value makes the result fall back to its default (`normal` / 2).
On `["--delay", "abc"]` the code stores `atoi("abc") = 0`, not the
default 2; and on `["--mode", "threads", "--mode"]` the trailing
`--mode` has a missing value yet the mode stays `"threads"`, not the
default `"normal"`. -/
theorem C2_fallback_counterexample :
    (parse_args ["--delay", "abc"]).2 = 0 ∧ ¬(parse_args ["--delay", "abc"]).2 = 2 ∧
    parse_args ["--mode", "threads", "--mode"] = ("threads", 2) ∧
    ¬(parse_args ["--mode", "threads", "--mode"]).1 = "normal" := by
  decide

/-- Claim C2 as amended: the scan is left to right; each `--mode v` /
`--delay v` occurrence with a value present installs that value (hence
a repeated flag's last occurrence wins); a flag whose value is missing
is skipped, keeping the value accumulated so far (the default only when
the flag never took effect); a malformed delay value yields `atoi`'s
conversion — 0 when the string has no leading digits — rather than the
default 2; all other arguments are ignored. -/
theorem C2_parse_behavior :
    (∀ v rest mode delay, parseLoop ("--mode" :: v :: rest) mode delay = parseLoop rest v delay) ∧
    (∀ v rest mode delay, parseLoop ("--delay" :: v :: rest) mode delay
      = parseLoop rest mode (atoi v)) ∧
    (∀ mode delay, parseLoop ["--mode"] mode delay = (mode, delay)) ∧
    (∀ mode delay, parseLoop ["--delay"] mode delay = (mode, delay)) ∧
    (∀ a rest mode delay, ¬a = "--mode" → ¬a = "--delay" →
      parseLoop (a :: rest) mode delay = parseLoop rest mode delay) ∧
    atoi "abc" = 0 := by
  refine ⟨?_, ?_, ?_, ?_, ?_, by decide⟩
  · intro v rest mode delay; simp [parseLoop]
  · intro v rest mode delay; simp [parseLoop]
  · intro mode delay; simp [parseLoop]
  · intro mode delay; simp [parseLoop]
  · intro a rest mode delay h1 h2
    rw [parseLoop.eq_def]
    simp [h1, h2]

/-- Witness for C2's amended claim: an unrecognized argument is skipped
without touching the accumulated mode and delay. -/
theorem C2_parse_behavior_witness :
    parseLoop ["hello", "--mode", "threads"] "normal" 2
      = parseLoop ["--mode", "threads"] "normal" 2 :=
  C2_parse_behavior.2.2.2.2.1 "hello" ["--mode", "threads"] "normal" 2
    (by decide) (by decide)

/-- Positions below the loop index are never touched by the remainder
of the stack-buffer fill loop. -/
theorem fillStackLoop_get_lt (n : Nat) :
    ∀ i buf j, 512 - i = n → j < i →
      (fillStackLoop buf i).get? j = buf.get? j := by
  induction n with
  | zero =>
      intro i buf j hn hj
      rw [fillStackLoop]
      have hge : ¬i < 512 := by omega
      simp [hge]
  | succ n ih =>
      intro i buf j hn hj
      rw [fillStackLoop]
      have hi : i < 512 := by omega
      simp only [hi, if_true]
      rw [ih (i + 1) _ j (by omega) (by omega)]
      exact List.get?_set_ne _ _ (by omega)

/-- Positions from the loop index up to 511 hold the pattern byte after
the remainder of the stack-buffer fill loop. -/
theorem fillStackLoop_get_ge (n : Nat) :
    ∀ i buf j, 512 - i = n → i ≤ j → j < 512 → buf.length = 512 →
      (fillStackLoop buf i).get? j = some (65 + j % 26) := by
  induction n with
  | zero => intro i buf j hn hij hj hlen; omega
  | succ n ih =>
      intro i buf j hn hij hj hlen
      have hi : i < 512 := by omega
      rw [fillStackLoop]
      simp only [hi, if_true]
      rcases Nat.eq_or_lt_of_le hij with he | hlt
      · subst he
        rw [fillStackLoop_get_lt n (i + 1) _ i (by omega) (by omega)]
        exact List.get?_set_eq_of_lt _ (by omega)
      · exact ih (i + 1) _ j (by omega) (by omega) hj (by simp [hlen])

/-- Claim C3: the stack pattern is deterministic and
address-independent — in the embedding the buffer is a pure value with
no address at all, identical on every run — and the byte written at
each offset `i` of the 512-byte `stack_buffer` is `'A' + (i % 26)`. -/
theorem C3_stack_pattern (i : Nat) (h : i < 512) :
    stack_buffer.get? i = some (65 + i % 26) :=
  fillStackLoop_get_ge 512 0 (List.replicate 512 0) i rfl (Nat.zero_le i) h
    (List.length_replicate 512 0)

/-- Witness for C3 at offset 30: the byte is 69, i.e. `'E'`. -/
theorem C3_stack_pattern_witness : stack_buffer.get? 30 = some (65 + 30 % 26) :=
  C3_stack_pattern 30 (by decide)

/-- Claim C4: `create_binary_tree` with depth 3 yields exactly 7 nodes
whose values are a permutation of `{1, ..., 7}`, every present left
child holds `2 * v` and every present right child `2 * v + 1` for its
parent's value `v`, and depth 0 yields no nodes. -/
theorem C4_binary_tree_depth3 :
    (create_binary_tree 3 1).size = 7 ∧
    List.Perm (create_binary_tree 3 1).values [1, 2, 3, 4, 5, 6, 7] ∧
    (create_binary_tree 3 1).childPattern = true ∧
    create_binary_tree 0 1 = .leaf := by
  have h0 : ∀ v : Int, create_binary_tree 0 v = .leaf := by
    intro v; rw [create_binary_tree]; norm_num
  have h1 : ∀ v : Int, create_binary_tree 1 v = .node v .leaf .leaf 1 := by
    intro v; rw [create_binary_tree]; norm_num [h0]
  have h2 : ∀ v : Int, create_binary_tree 2 v
      = .node v (.node (v * 2) .leaf .leaf 1) (.node (v * 2 + 1) .leaf .leaf 1) 2 := by
    intro v; rw [create_binary_tree]; norm_num [h1]
  have h : create_binary_tree 3 1 =
      .node 1 (.node 2 (.node 4 .leaf .leaf 1) (.node 5 .leaf .leaf 1) 2)
        (.node 3 (.node 6 .leaf .leaf 1) (.node 7 .leaf .leaf 1) 2) 3 := by
    rw [create_binary_tree]; norm_num [h2]
  refine ⟨?_, ?_, ?_, ?_⟩
  · rw [h]; decide
  · rw [h]; decide
  · rw [h]; decide
  · exact h0 1

/-- Claim C5: non-positive size or depth gives an empty structure from
both builders, with no failure. -/
theorem C5_nonpositive_empty (count : Int) (hc : count ≤ 0) (d v : Int) (hd : d ≤ 0) :
    create_linked_list count = [] ∧ create_binary_tree d v = .leaf := by
  constructor
  · simp [create_linked_list, hc]
  · rw [create_binary_tree]; simp [hd]

/-- Witness for C5 at `count = -3`, `depth = 0`. -/
theorem C5_nonpositive_empty_witness :
    create_linked_list (-3) = [] ∧ create_binary_tree 0 1 = .leaf :=
  C5_nonpositive_empty (-3) (by decide) 0 1 (by decide)

/-- Claim C6 counterexample: the claim allows a worker to complete only
when shutdown is observed true AND the queue is empty (or the ceiling
is reached).  In the code, a worker that observes shutdown completes at
once even with the queue non-empty, both at the loop head and after the
condition-variable wait: with shutdown set, a queue still holding item
5, and zero processed items, both observation points yield
`completed`, yet neither disjunct of the claimed condition holds. -/
theorem C6_completion_counterexample :
    workerStep true [5] 0 .running = (.completed, [5], 0) ∧
    workerStep true [5] 0 .waiting = (.completed, [5], 0) ∧
    ¬((true = true ∧ ([5] : List Nat) = []) ∨ 10 ≤ 0) := by decide

/-- Claim C6 as amended: a worker reaches `Completed` exactly when the
shutdown flag is observed true — regardless of whether the queue is
empty — or its 10-item work-count ceiling is reached; until then it
cycles `Running → WaitingOnQueue → Processing → Running`. -/
theorem C6_worker_state_machine (sh : Bool) (q : List Nat) (c : Nat) :
    ((workerStep sh q c .running).1 = .completed ↔ (sh = true ∨ 10 ≤ c)) ∧
    ((workerStep sh q c .waiting).1 = .completed ↔ sh = true) ∧
    (sh = false → c < 10 → workerStep sh q c .running = (.waiting, q, c)) ∧
    (sh = false → ∀ x rest, q = x :: rest → workerStep sh q c .waiting = (.processing, rest, c)) ∧
    (sh = false → q = [] → workerStep sh q c .waiting = (.waiting, q, c)) ∧
    workerStep sh q c .processing = (.running, q, c + 1) := by
  refine ⟨?_, ?_, ?_, ?_, ?_, ?_⟩
  · cases sh
    · by_cases hc : c < 10 <;> simp [workerStep, hc] <;> omega
    · simp [workerStep]
  · cases sh
    · cases q <;> simp [workerStep]
    · simp [workerStep]
  · intro hsh hc; subst hsh; simp [workerStep, hc]
  · intro hsh x rest hq; subst hsh; subst hq; simp [workerStep]
  · intro hsh hq; subst hsh; subst hq; simp [workerStep]
  · simp [workerStep]

/-- Witness for C6's amended claim: a worker that observes work in the
queue and no shutdown pops the front item and moves to processing. -/
theorem C6_worker_state_machine_witness :
    workerStep false [7] 2 .waiting = (.processing, [], 2) :=
  (C6_worker_state_machine false [7] 2).2.2.2.1 rfl 7 [] rfl

/-- Claim C7: after `create_heap_patterns` returns, exactly the doubles
region, the heap struct and the three small fragmentation allocations
remain resident, while the heap byte buffer and the heap integer array
have been released. -/
theorem C7_heap_residency :
    residentAfter create_heap_patterns_events
      = ["heap_doubles", "heap_struct", "small_alloc1", "small_alloc2", "small_alloc3"] ∧
    ¬"heap_buffer" ∈ residentAfter create_heap_patterns_events ∧
    ¬"heap_integers" ∈ residentAfter create_heap_patterns_events := by decide

/-- The recursive accumulation of `recursive_function`, for an
arbitrary accumulator: the result adds `depth + (depth-1) + ... + 1`
onto the accumulator. -/
theorem recursive_function_eq_add (d : Nat) :
    ∀ a : Int, recursive_function d a
      = a + Finset.sum (Finset.range (d + 1)) (fun i => (i : Int)) := by
  induction d with
  | zero => intro a; rw [recursive_function]; simp
  | succ n ih =>
      intro a
      rw [recursive_function]
      have h0 : ¬((n + 1 : Nat) : Int) ≤ 0 := by push_cast; omega
      rw [if_neg h0]
      have h1 : ((n + 1 : Nat) : Int) - 1 = ((n : Nat) : Int) := by push_cast; ring
      rw [h1, ih, Finset.sum_range_succ (fun i => (i : Int)) (n + 1)]
      push_cast
      ring

/-- Claim C9: the recursive accumulation path of the normal scenario is
deterministic — in the embedding `recursive_function` is a pure
function, so identical inputs give identical results by definition —
and at depth `d` with accumulator 0 it returns
`d + (d-1) + ... + 1`. -/
theorem C9_recursive_sum (d : Nat) :
    recursive_function d 0 = Finset.sum (Finset.range (d + 1)) (fun i => (i : Int)) := by
  rw [recursive_function_eq_add]
  ring

/-- Claim C10: a flag token immediately following `--mode` is consumed
as the mode value: `--mode --delay 5` parses to mode `"--delay"` with
the delay left at its default 2, and that mode is then rejected by the
dispatcher with the unknown-mode message and exit status 1. -/
theorem C10_flag_consumed_as_value :
    parse_args ["--mode", "--delay", "5"] = ("--delay", 2) ∧
    dispatch "--delay" = ⟨.exited 1, true⟩ := by
  decide

/-- A worker observation point can yield the processing phase only from
the condition-variable wait. -/
theorem workerStep_processing_from_waiting {sh : Bool} {q : List Nat} {c : Nat} {p : WPhase}
    (h : (workerStep sh q c p).1 = .processing) : p = .waiting := by
  cases p
  · simp only [workerStep] at h
    split at h <;> simp at h
  · rfl
  · simp [workerStep] at h
  · simp [workerStep] at h

/-- Per-step accounting for one worker: the global-counter increment,
the worker's presence in the processing region, and the ghost dequeue
count balance out. -/
theorem sysWorkerStep_delta (s : Sys) (w : WorkerS) :
    (sysWorkerStep s w).2.2.1 + (if (sysWorkerStep s w).1.phase = .processing then 1 else 0)
        + s.popped
      = (sysWorkerStep s w).2.2.2 + s.counter
        + (if w.phase = .processing then 1 else 0) := by
  by_cases hp : (workerStep s.shutdown s.queue w.count w.phase).1 = .processing
  · have hw := workerStep_processing_from_waiting hp
    simp [sysWorkerStep, hp, hw]
    omega
  · simp [sysWorkerStep, hp]
    omega

/-- A step that changes neither the counter, the ghost dequeue count,
nor any worker's state preserves the balance. -/
theorem inv_congr {s s' : Sys} (hc : s'.counter = s.counter) (hp : s'.popped = s.popped)
    (h1 : s'.w1 = s.w1) (h2 : s'.w2 = s.w2) (h3 : s'.w3 = s.w3)
    (h : s.counter + s.inFlight = s.popped) :
    s'.counter + s'.inFlight = s'.popped := by
  simpa [Sys.inFlight, hc, hp, h1, h2, h3] using h

/-- The counter/in-flight/dequeue balance is preserved by every step of
every thread. -/
theorem sysStep_inv (s : Sys) (t : Tid) (h : s.counter + s.inFlight = s.popped) :
    (sysStep s t).counter + (sysStep s t).inFlight = (sysStep s t).popped := by
  cases t
  case worker1 =>
    have hd := sysWorkerStep_delta s s.w1
    simp only [sysStep, Sys.inFlight] at *
    omega
  case worker2 =>
    have hd := sysWorkerStep_delta s s.w2
    simp only [sysStep, Sys.inFlight] at *
    omega
  case worker3 =>
    have hd := sysWorkerStep_delta s s.w3
    simp only [sysStep, Sys.inFlight] at *
    omega
  case producer =>
    refine inv_congr ?_ ?_ ?_ ?_ ?_ h <;> simp only [sysStep] <;> split <;> (try split) <;> rfl
  case monitor =>
    refine inv_congr ?_ ?_ ?_ ?_ ?_ h <;> simp only [sysStep] <;> split <;> (try split) <;> rfl
  case blocker =>
    refine inv_congr ?_ ?_ ?_ ?_ ?_ h <;> simp only [sysStep] <;> split <;> rfl
  case cpu1 =>
    refine inv_congr ?_ ?_ ?_ ?_ ?_ h <;> simp only [sysStep] <;> split <;> (try split) <;> rfl
  case cpu2 =>
    refine inv_congr ?_ ?_ ?_ ?_ ?_ h <;> simp only [sysStep] <;> split <;> (try split) <;> rfl
  case mainCtl =>
    exact inv_congr rfl rfl rfl rfl rfl h

/-- The balance holds at the end of any schedule started in a state
satisfying it. -/
theorem sysRun_inv (sched : List Tid) :
    ∀ s : Sys, s.counter + s.inFlight = s.popped →
      (sysRun sched s).counter + (sysRun sched s).inFlight = (sysRun sched s).popped := by
  induction sched with
  | nil => intro s h; exact h
  | cons t ts ih =>
      intro s h
      simpa [sysRun] using ih (sysStep s t) (sysStep_inv s t h)

set_option maxRecDepth 400000 in
/-- Claim C8 counterexample: the claim requires the shared queue to be
empty once orchestration completes.  Under the starvation schedule —
the producer enqueues all 30 items and no worker is scheduled before
shutdown — every thread still reports completion (workers observe the
flag and break), yet all 30 items remain queued. -/
theorem C8_nonempty_queue_counterexample :
    (sysRun starvedSched initSys).allCompleted = true ∧
    ¬(sysRun starvedSched initSys).queue = [] := by decide

/-- Claim C8 as amended: when the orchestration completes (every
spawned thread has reported `Completed` and been joined), the shared
global counter equals the number of work items successfully processed
by the workers; the shared queue, however, may retain items that no
worker dequeued before shutdown. -/
theorem C8_counter_matches_processed (sched : List Tid)
    (h : (sysRun sched initSys).allCompleted = true) :
    (sysRun sched initSys).counter = (sysRun sched initSys).popped := by
  have hinv := sysRun_inv sched initSys (by decide)
  have hif : (sysRun sched initSys).inFlight = 0 := by
    simp only [Sys.allCompleted, Bool.decide_and, Bool.and_eq_true, decide_eq_true_eq] at h
    simp [Sys.inFlight, h.1, h.2.1, h.2.2.1]
  omega

set_option maxRecDepth 400000 in
/-- Witness for C8's amended claim under the drained schedule, where
each worker retires at its 10-item ceiling after the producer's 30
items have all been processed. -/
theorem C8_counter_matches_processed_witness :
    (sysRun drainedSched initSys).counter = (sysRun drainedSched initSys).popped :=
  C8_counter_matches_processed drainedSched (by decide)

end Incode
